import Mathlib

/-!
Shallow embedding of the incognitart backend (`src/backend/main.py`):
a SQLite-backed image gallery with upload, a paginated/sorted listing
endpoint, and a like/unlike toggle.  The relational store is modelled as
lists of rows; SQL aggregates become list filters and counts; `ORDER BY
... DESC` becomes an insertion sort with a descending key.  Timestamps
are integers (seconds); `timedelta(days=7)` is `7 * 86400`.
-/

deriving instance DecidableEq for Except

namespace Incognitart

/-- A row of the `images` table (class `Image` in `main.py`). -/
structure Image where
  id : Nat
  author_name : Option String
  image_name : Option String
  original_filename : String
  stored_filename : String
  content_type : Option String
  size : Option Nat
  created_at : Int
deriving Repr, DecidableEq

/-- A row of the `likes` table (class `Like` in `main.py`); the table
carries `UniqueConstraint("image_id", "user_hash")`. -/
structure Like where
  id : Nat
  image_id : Nat
  user_hash : String
  created_at : Int
deriving Repr, DecidableEq

/-- The relational store: the two tables. -/
structure DB where
  images : List Image
  likes : List Like
deriving Repr, DecidableEq

/-- The pydantic response model `ImageOut`. -/
structure ImageOut where
  id : Nat
  author_name : Option String
  image_name : Option String
  original_filename : String
  stored_filename : String
  content_type : Option String
  size : Option Nat
  created_at : Int
  likes_count : Nat
  liked_by_user : Bool
  image_url : String
deriving Repr, DecidableEq

/-- The pydantic request model `LikeAction`. -/
structure LikeAction where
  user_hash : String
  action : String
deriving Repr, DecidableEq

/-- The JSON object returned by `like_image`. -/
structure LikeResult where
  image_id : Nat
  likes_count : Nat
  liked_by_user : Bool
deriving Repr, DecidableEq

/-- `fastapi.HTTPException(status_code, detail)`. -/
structure HTTPException where
  status : Nat
  detail : String
deriving Repr, DecidableEq

/-- `db.get(Image, image_id)`: primary-key lookup. -/
def findImage (images : List Image) (i : Nat) : Option Image :=
  images.find? (fun im => im.id == i)

/-- `SELECT count(likes.id) WHERE likes.image_id = i`: total likes of one image. -/
def imageLikeCount (likes : List Like) (i : Nat) : Nat :=
  (likes.filter (fun l => l.image_id == i)).length

/-- Number of Like rows for one `(image_id, user_hash)` pair. -/
def pairCount (likes : List Like) (i : Nat) (uh : String) : Nat :=
  (likes.filter (fun l => l.image_id == i && l.user_hash == uh)).length

/-- Whether a Like row for `(image_id, user_hash)` exists: this is the
condition under which the `INSERT` in the `like` branch hits the
`uix_image_user` uniqueness constraint and raises `IntegrityError`. -/
def pairExists (likes : List Like) (i : Nat) (uh : String) : Bool :=
  likes.any (fun l => l.image_id == i && l.user_hash == uh)

/-- SQLite rowid assignment for a fresh `likes` row: one more than the
largest id in the table. -/
def nextLikeId (likes : List Like) : Nat :=
  (likes.map Like.id).foldr max 0 + 1

/-- SQLite rowid assignment for a fresh `images` row. -/
def nextImageId (images : List Image) : Nat :=
  (images.map Image.id).foldr max 0 + 1

/-- The `like` branch's table mutation: `db.add(like); db.commit()`,
with the `IntegrityError` of the uniqueness constraint swallowed by
`db.rollback()` — the insert is discarded when the pair already has a
row. -/
def likeInsert (likes : List Like) (i : Nat) (uh : String) (now : Int) :
    List Like :=
  if pairExists likes i uh then likes
  else likes ++ [⟨nextLikeId likes, i, uh, now⟩]

/-- The `unlike` branch's table mutation: `DELETE FROM likes WHERE
image_id = i AND user_hash = uh` (zero matching rows is not an error). -/
def unlikeDelete (likes : List Like) (i : Nat) (uh : String) : List Like :=
  likes.filter (fun l => !(l.image_id == i && l.user_hash == uh))

/-- `POST /api/images/{image_id}/like` (`like_image` in `main.py`).
Validates the payload, looks the image up, then either inserts a Like
row (discarding the insert when the uniqueness constraint rejects it)
or deletes the matching rows, and returns the freshly recomputed count
together with the new state. -/
def like_image (db : DB) (image_id : Nat) (act : LikeAction) (now : Int) :
    Except HTTPException (DB × LikeResult) :=
  if act.user_hash = "" ∨ (act.action ≠ "like" ∧ act.action ≠ "unlike") then
    .error ⟨400, "Invalid payload"⟩
  else
    match findImage db.images image_id with
    | none => .error ⟨404, "Image not found"⟩
    | some _ =>
      if act.action = "like" then
        let likes' := likeInsert db.likes image_id act.user_hash now
        .ok (⟨db.images, likes'⟩,
             ⟨image_id, imageLikeCount likes' image_id, true⟩)
      else
        let likes' := unlikeDelete db.likes image_id act.user_hash
        .ok (⟨db.images, likes'⟩,
             ⟨image_id, imageLikeCount likes' image_id, false⟩)

/-- `page = max(1, page)`. -/
def clampPage (page : Int) : Int := max 1 page

/-- `limit = max(1, min(100, limit))`. -/
def clampLimit (limit : Int) : Int := max 1 (min 100 limit)

/-- `skip = (page - 1) * limit`, computed after clamping. -/
def pageSkip (page limit : Int) : Int := (clampPage page - 1) * clampLimit limit

/-- `OFFSET skip LIMIT lim`. -/
def sqlWindow (skip lim : Nat) (l : List Image) : List Image :=
  (l.drop skip).take lim

/-- `ORDER BY created_at DESC`: newest first. -/
def recentRel : Image → Image → Prop :=
  fun a b => b.created_at ≤ a.created_at

instance : DecidableRel recentRel := fun _ _ => Int.decLe _ _

/-- `ORDER BY count(likes.id) DESC` after the outer join: most total
likes first. -/
def popularRel (likes : List Like) : Image → Image → Prop :=
  fun a b => imageLikeCount likes b.id ≤ imageLikeCount likes a.id

instance (likes : List Like) : DecidableRel (popularRel likes) :=
  fun _ _ => Nat.decLe _ _

/-- The correlated subquery of the trending branch: likes of this image
with `created_at >= cutoff`. -/
def trendingLikeCount (likes : List Like) (cutoff : Int) (i : Nat) : Nat :=
  (likes.filter (fun l => l.image_id == i && decide (cutoff ≤ l.created_at))).length

/-- `ORDER BY likes_week DESC`: most recent-window likes first. -/
def trendingRel (likes : List Like) (cutoff : Int) : Image → Image → Prop :=
  fun a b => trendingLikeCount likes cutoff b.id ≤ trendingLikeCount likes cutoff a.id

instance (likes : List Like) (cutoff : Int) :
    DecidableRel (trendingRel likes cutoff) :=
  fun _ _ => Nat.decLe _ _

/-- `_get_total_likes_for_ids`: the dict `{image_id: count}` produced by
the grouped count over `ids`; an id with zero likes is absent from the
dict, and an empty id list issues no query and yields the empty dict. -/
def get_total_likes_for_ids (likes : List Like) (ids : List Nat) (i : Nat) :
    Option Nat :=
  if ids.isEmpty then none
  else
    let c := ((likes.filter (fun l => decide (l.image_id ∈ ids))).filter
      (fun l => l.image_id == i)).length
    if c = 0 then none else some c

/-- `_get_liked_ids_by_user`: image ids among `ids` that the user has
liked; empty when the id list is empty or the hash is blank. -/
def get_liked_ids_by_user (likes : List Like) (ids : List Nat) (uh : String) :
    List Nat :=
  if ids.isEmpty || uh == "" then []
  else (likes.filter
    (fun l => decide (l.image_id ∈ ids) && l.user_hash == uh)).map Like.image_id

/-- Python truthiness of an `Optional[str]`: `None` and `""` are falsy. -/
def strTruthy : Option String → Bool
  | none => false
  | some s => !(s == "")

/-- `str.rstrip("/")`: drop trailing slashes. -/
def rstripSlash (s : String) : String :=
  String.mk ((s.data.reverse.dropWhile (fun c => c == '/')).reverse)

/-- Assemble one `ImageOut` row of the listing response. -/
def buildImageOut (likes : List Like) (ids : List Nat) (liked_ids : List Nat)
    (base : String) (img : Image) : ImageOut :=
  { id := img.id
    author_name := img.author_name
    image_name := img.image_name
    original_filename := img.original_filename
    stored_filename := img.stored_filename
    content_type := img.content_type
    size := img.size
    created_at := img.created_at
    likes_count := (get_total_likes_for_ids likes ids img.id).getD 0
    liked_by_user := decide (img.id ∈ liked_ids)
    image_url := rstripSlash base ++ "/images/" ++ img.stored_filename }

/-- The sort-strategy dispatch of `list_images`: the full table in the
order of the chosen `ORDER BY` clause; an unrecognized sort value falls
back to the recent ordering. -/
def sortedImages (db : DB) (sort : String) (now : Int) : List Image :=
  if sort = "recent" then
    db.images.insertionSort recentRel
  else if sort = "popular" then
    db.images.insertionSort (popularRel db.likes)
  else if sort = "trending" then
    db.images.insertionSort (trendingRel db.likes (now - 7 * 86400))
  else
    db.images.insertionSort recentRel

/-- `GET /images` (`list_images` in `main.py`).  Clamps the pagination
parameters, applies the sort strategy, windows the rows with
`OFFSET/LIMIT`, then merges in the batched aggregates.  `now` stands
for `datetime.utcnow()` and `base` for `str(request.base_url)`. -/
def list_images (db : DB) (page limit : Int) (sort : String)
    (user_hash : Option String) (now : Int) (base : String) : List ImageOut :=
  let skip := (pageSkip page limit).toNat
  let lim := (clampLimit limit).toNat
  let images := sqlWindow skip lim (sortedImages db sort now)
  let ids := images.map Image.id
  let liked_ids :=
    if strTruthy user_hash then
      get_liked_ids_by_user db.likes ids (user_hash.getD "")
    else []
  images.map (buildImageOut db.likes ids liked_ids base)

/-- The uploaded file handle: `filename` and `content_type` come from
the multipart part, `contents` is the byte payload. -/
structure UploadFile where
  filename : Option String
  content_type : Option String
  contents : List Nat
deriving Repr, DecidableEq

/-- `pathlib.Path(s).name`: the final path component (trailing slashes
ignored). -/
def pathName (s : String) : String :=
  let t := s.data.reverse.dropWhile (fun c => c == '/')
  String.mk ((t.takeWhile (fun c => !(c == '/'))).reverse)

/-- `pathlib.Path(s).suffix`: the extension of the final component,
empty when the name has no interior dot. -/
def pathSuffix (s : String) : String :=
  let name := (pathName s).data
  match name.reverse.findIdx? (fun c => c == '.') with
  | none => ""
  | some k =>
    let i := name.length - 1 - k
    if 0 < i ∧ i < name.length - 1 then String.mk (name.drop i) else ""

/-- Python `a or b` on strings: `b` when `a` is `None` or empty. -/
def strOrD : Option String → String → String
  | none, d => d
  | some s, d => if s = "" then d else s

/-- `POST /image` (`upload_image` in `main.py`).  Rejects a missing file
with a 400, persists the bytes under a generated name, inserts the
image row (`_create_image_record`), and answers with the fresh view
model at zero likes.  `uuidHex` stands for `uuid4().hex`, `now` for
`datetime.utcnow()` and `base` for `str(request.base_url)`. -/
def upload_image (db : DB) (authorName imageName : Option String)
    (image : Option UploadFile) (uuidHex : String) (now : Int) (base : String) :
    Except HTTPException (DB × ImageOut) :=
  match image with
  | none => .error ⟨400, "No image file provided"⟩
  | some f =>
    let size := f.contents.length
    let original := strOrD f.filename "upload"
    let ext := let s := pathSuffix original; if s = "" then ".png" else s
    let stored_filename := uuidHex ++ ext
    let img : Image :=
      { id := nextImageId db.images
        author_name := authorName
        image_name := imageName
        original_filename := pathName original
        stored_filename := stored_filename
        content_type := f.content_type
        size := some size
        created_at := now }
    let image_url := rstripSlash base ++ "/images/" ++ stored_filename
    .ok (⟨db.images ++ [img], db.likes⟩,
      { id := img.id
        author_name := img.author_name
        image_name := img.image_name
        original_filename := img.original_filename
        stored_filename := img.stored_filename
        content_type := img.content_type
        size := img.size
        created_at := img.created_at
        likes_count := 0
        liked_by_user := false
        image_url := image_url })

/-- At most one Like row per `(image_id, user_hash)` pair: the
`uix_image_user` uniqueness constraint, as a predicate on the table. -/
def likesUnique (likes : List Like) : Prop :=
  likes.Pairwise (fun a b => ¬(a.image_id = b.image_id ∧ a.user_hash = b.user_hash))

/-- States reachable through the system's operations, starting from the
empty store. -/
inductive Reachable : DB → Prop where
  | init : Reachable ⟨[], []⟩
  | upload (db : DB) (authorName imageName : Option String) (f : UploadFile)
      (uuidHex : String) (now : Int) (base : String) (db' : DB) (out : ImageOut) :
      Reachable db →
      upload_image db authorName imageName (some f) uuidHex now base = .ok (db', out) →
      Reachable db'
  | like (db : DB) (i : Nat) (act : LikeAction) (now : Int)
      (db' : DB) (r : LikeResult) :
      Reachable db → like_image db i act now = .ok (db', r) →
      Reachable db'


/-! ### Basic facts about the like-table helpers -/

theorem pairCount_pos_iff (likes : List Like) (i : Nat) (uh : String) :
    0 < pairCount likes i uh ↔ pairExists likes i uh = true := by
  simp [pairCount, pairExists, List.length_pos, List.any_eq_true,
    ← List.filter_eq_nil, not_forall]

theorem pairCount_eq_zero_of_not_exists {likes : List Like} {i : Nat} {uh : String}
    (h : pairExists likes i uh = false) : pairCount likes i uh = 0 := by
  by_contra hne
  have : 0 < pairCount likes i uh := Nat.pos_of_ne_zero hne
  rw [pairCount_pos_iff] at this
  rw [this] at h
  exact Bool.noConfusion h

theorem pairCount_likeInsert (likes : List Like) (i : Nat) (uh : String) (t : Int)
    (hinv : pairCount likes i uh ≤ 1) :
    pairCount (likeInsert likes i uh t) i uh = 1 := by
  unfold likeInsert
  by_cases h : pairExists likes i uh = true
  · rw [if_pos h]
    have := (pairCount_pos_iff likes i uh).mpr h
    omega
  · rw [if_neg h]
    have h0 : pairCount likes i uh = 0 :=
      pairCount_eq_zero_of_not_exists (Bool.eq_false_iff.mpr h)
    unfold pairCount at h0 ⊢
    rw [List.filter_append, List.length_append, h0]
    simp

theorem pairExists_likeInsert (likes : List Like) (i : Nat) (uh : String) (t : Int) :
    pairExists (likeInsert likes i uh t) i uh = true := by
  unfold likeInsert
  by_cases h : pairExists likes i uh = true
  · rw [if_pos h]; exact h
  · rw [if_neg h]
    unfold pairExists
    simp

theorem likeInsert_of_exists {likes : List Like} {i : Nat} {uh : String} {t : Int}
    (h : pairExists likes i uh = true) : likeInsert likes i uh t = likes := by
  unfold likeInsert
  rw [if_pos h]

theorem unlikeDelete_of_not_exists {likes : List Like} {i : Nat} {uh : String}
    (h : pairExists likes i uh = false) : unlikeDelete likes i uh = likes := by
  unfold unlikeDelete
  apply List.filter_eq_self.mpr
  intro l hl
  simp only [Bool.not_eq_eq_eq_not, Bool.not_true, Bool.not_eq_true']
  unfold pairExists at h
  rw [List.any_eq_false] at h
  simpa using h l hl

/-! ### Unfolding `like_image` on the two recognized actions -/

theorem like_image_valid_cond {uh a : String} (huh : uh ≠ "")
    (ha : a = "like" ∨ a = "unlike") :
    ¬(uh = "" ∨ (a ≠ "like" ∧ a ≠ "unlike")) := by
  rintro (h | ⟨h1, h2⟩)
  · exact huh h
  · rcases ha with h | h
    · exact h1 h
    · exact h2 h

theorem like_image_like_eq (db : DB) (i : Nat) (uh : String) (now : Int)
    (im : Image) (him : findImage db.images i = some im) (huh : uh ≠ "") :
    like_image db i ⟨uh, "like"⟩ now =
      .ok (⟨db.images, likeInsert db.likes i uh now⟩,
           ⟨i, imageLikeCount (likeInsert db.likes i uh now) i, true⟩) := by
  unfold like_image
  rw [if_neg (like_image_valid_cond huh (Or.inl rfl)), him]
  simp

theorem like_image_unlike_eq (db : DB) (i : Nat) (uh : String) (now : Int)
    (im : Image) (him : findImage db.images i = some im) (huh : uh ≠ "") :
    like_image db i ⟨uh, "unlike"⟩ now =
      .ok (⟨db.images, unlikeDelete db.likes i uh⟩,
           ⟨i, imageLikeCount (unlikeDelete db.likes i uh) i, false⟩) := by
  unfold like_image
  rw [if_neg (like_image_valid_cond huh (Or.inr rfl)), him]
  simp

/-! ### Concrete stores used by witnesses -/

/-- A one-image store with an empty like table. -/
def exImage : Image := ⟨1, none, none, "f.png", "s1.png", none, none, 0⟩

/-- The store holding just `exImage`. -/
def exDB : DB := ⟨[exImage], []⟩

/-! ### Claim theorems -/

/-- C10: `like_image` validates the payload before looking the image up:
whenever the hash is blank or the action unrecognized, the call answers
the 400 Invalid-payload error on every store — including stores without
the requested image — and therefore never the 404 error, so 404 arises
only on valid payloads. -/
theorem like_image_validates_before_lookup (db : DB) (i : Nat) (act : LikeAction)
    (now : Int)
    (h : act.user_hash = "" ∨ (act.action ≠ "like" ∧ act.action ≠ "unlike")) :
    like_image db i act now = .error ⟨400, "Invalid payload"⟩ ∧
    like_image db i act now ≠ .error ⟨404, "Image not found"⟩ := by
  unfold like_image
  rw [if_pos h]
  exact ⟨rfl, by decide⟩

theorem like_image_validates_before_lookup_witness :
    (("" : String) = "" ∨ (("like" : String) ≠ "like" ∧ ("like" : String) ≠ "unlike")) ∧
    (like_image ⟨[], []⟩ 1 ⟨"", "like"⟩ 0 = .error ⟨400, "Invalid payload"⟩ ∧
     like_image ⟨[], []⟩ 1 ⟨"", "like"⟩ 0 ≠ .error ⟨404, "Image not found"⟩) :=
  ⟨Or.inl rfl, like_image_validates_before_lookup ⟨[], []⟩ 1 ⟨"", "like"⟩ 0 (Or.inl rfl)⟩

/-- C2 counterexample: on the empty store no image with id 1 exists, yet
the call with a blank hash does not fail with the 404 Not-found error —
it fails with the 400 Invalid-payload error — refuting that `like_image`
fails with NotFound exactly when the image is missing. -/
theorem like_image_notfound_iff_cex :
    findImage (DB.mk [] []).images 1 = none ∧
    like_image ⟨[], []⟩ 1 ⟨"", "unlike"⟩ 0 ≠ .error ⟨404, "Image not found"⟩ ∧
    like_image ⟨[], []⟩ 1 ⟨"", "unlike"⟩ 0 = .error ⟨400, "Invalid payload"⟩ := by
  decide

/-- C2 (amended): `like_image` fails with the 400 Invalid-payload error
exactly when the hash is blank or the action unrecognized; among calls
with a valid payload it fails with the 404 Not-found error exactly when
no image with that id exists; and it succeeds exactly when the payload
is valid and the image exists. -/
theorem like_image_error_characterization (db : DB) (i : Nat) (act : LikeAction)
    (now : Int) :
    (like_image db i act now = .error ⟨400, "Invalid payload"⟩ ↔
      (act.user_hash = "" ∨ (act.action ≠ "like" ∧ act.action ≠ "unlike"))) ∧
    (like_image db i act now = .error ⟨404, "Image not found"⟩ ↔
      (¬(act.user_hash = "" ∨ (act.action ≠ "like" ∧ act.action ≠ "unlike")) ∧
       findImage db.images i = none)) ∧
    ((∃ p, like_image db i act now = .ok p) ↔
      (¬(act.user_hash = "" ∨ (act.action ≠ "like" ∧ act.action ≠ "unlike")) ∧
       (findImage db.images i).isSome)) := by
  by_cases hv : act.user_hash = "" ∨ (act.action ≠ "like" ∧ act.action ≠ "unlike")
  · unfold like_image
    rw [if_pos hv]
    refine ⟨⟨fun _ => hv, fun _ => rfl⟩, ?_, ?_⟩ <;> simp [hv]
  · unfold like_image
    rw [if_neg hv]
    cases hfi : findImage db.images i with
    | none => simp [hv, hfi]
    | some im =>
      simp only [hv, hfi]
      split <;> simp

/-- C1: applying `like` twice for the same `(image, user)` pair succeeds
both times, leaves exactly one Like row for the pair, and the second
call reports the same count as the first with `liked_by_user = true`. -/
theorem like_twice_idempotent (db : DB) (i : Nat) (uh : String) (t1 t2 : Int)
    (im : Image) (him : findImage db.images i = some im) (huh : uh ≠ "")
    (hinv : pairCount db.likes i uh ≤ 1) :
    ∃ db1 r1 db2 r2,
      like_image db i ⟨uh, "like"⟩ t1 = .ok (db1, r1) ∧
      like_image db1 i ⟨uh, "like"⟩ t2 = .ok (db2, r2) ∧
      pairCount db2.likes i uh = 1 ∧
      r2.likes_count = r1.likes_count ∧
      r1.liked_by_user = true ∧ r2.liked_by_user = true := by
  have h1 := like_image_like_eq db i uh t1 im him huh
  have h2 := like_image_like_eq ⟨db.images, likeInsert db.likes i uh t1⟩ i uh t2
    im him huh
  have hins : likeInsert (likeInsert db.likes i uh t1) i uh t2 =
      likeInsert db.likes i uh t1 :=
    likeInsert_of_exists (pairExists_likeInsert db.likes i uh t1)
  rw [hins] at h2
  refine ⟨_, _, _, _, h1, h2, ?_, rfl, rfl, rfl⟩
  exact pairCount_likeInsert db.likes i uh t1 hinv

theorem like_twice_idempotent_witness :
    findImage exDB.images 1 = some exImage ∧ ("u1" : String) ≠ "" ∧
    pairCount exDB.likes 1 "u1" ≤ 1 ∧
    ∃ db1 r1 db2 r2,
      like_image exDB 1 ⟨"u1", "like"⟩ 5 = .ok (db1, r1) ∧
      like_image db1 1 ⟨"u1", "like"⟩ 9 = .ok (db2, r2) ∧
      pairCount db2.likes 1 "u1" = 1 ∧
      r2.likes_count = r1.likes_count ∧
      r1.liked_by_user = true ∧ r2.liked_by_user = true :=
  ⟨rfl, by decide, by decide,
    like_twice_idempotent exDB 1 "u1" 5 9 exImage rfl (by decide) (by decide)⟩

/-- C3: on a valid call against an existing image the operation
succeeds, the reported count is recounted from the like table of the
post-mutation store, and the reported liked-state is true for `like`
and false for `unlike`; unliking a pair with no Like row leaves the
table unchanged and reports the unchanged count with
`liked_by_user = false`. -/
theorem like_image_fresh_count (db : DB) (i : Nat) (uh a : String) (now : Int)
    (im : Image) (him : findImage db.images i = some im) (huh : uh ≠ "")
    (ha : a = "like" ∨ a = "unlike") :
    ∃ db' r, like_image db i ⟨uh, a⟩ now = .ok (db', r) ∧
      r.likes_count = imageLikeCount db'.likes i ∧
      r.liked_by_user = (a == "like") ∧
      (a = "unlike" → pairExists db.likes i uh = false →
        db'.likes = db.likes ∧ r.likes_count = imageLikeCount db.likes i ∧
        r.liked_by_user = false) := by
  rcases ha with ha | ha <;> subst ha
  · exact ⟨_, _, like_image_like_eq db i uh now im him huh, rfl, rfl,
      fun h => absurd h (by decide)⟩
  · refine ⟨_, _, like_image_unlike_eq db i uh now im him huh, rfl, rfl, ?_⟩
    intro _ hne
    have hdel := unlikeDelete_of_not_exists hne
    exact ⟨hdel, by rw [hdel], rfl⟩

theorem like_image_fresh_count_witness :
    findImage exDB.images 1 = some exImage ∧ ("u1" : String) ≠ "" ∧
    (("unlike" : String) = "like" ∨ ("unlike" : String) = "unlike") ∧
    ∃ db' r, like_image exDB 1 ⟨"u1", "unlike"⟩ 5 = .ok (db', r) ∧
      r.likes_count = imageLikeCount db'.likes 1 ∧
      r.liked_by_user = (("unlike" : String) == "like") ∧
      (("unlike" : String) = "unlike" → pairExists exDB.likes 1 "u1" = false →
        db'.likes = exDB.likes ∧ r.likes_count = imageLikeCount exDB.likes 1 ∧
        r.liked_by_user = false) :=
  ⟨rfl, by decide, Or.inr rfl,
    like_image_fresh_count exDB 1 "u1" "unlike" 5 exImage rfl (by decide) (Or.inr rfl)⟩

/-- C6: `list_images` never errors on out-of-range pagination: the page
is clamped to a minimum of 1, the limit into `[1, 100]` (zero and
negative values become 1, 500 becomes 100), the window offset is
`(clamped page - 1) * clamped limit`, and the listing coincides with the
listing at the already-clamped parameters. -/
theorem list_images_clamps (db : DB) (page limit : Int) (sort : String)
    (user_hash : Option String) (now : Int) (base : String) :
    1 ≤ clampPage page ∧ 1 ≤ clampLimit limit ∧ clampLimit limit ≤ 100 ∧
    clampPage 0 = 1 ∧ clampPage (-5) = 1 ∧ clampLimit 0 = 1 ∧
    clampLimit (-5) = 1 ∧ clampLimit 500 = 100 ∧
    pageSkip page limit = (clampPage page - 1) * clampLimit limit ∧
    list_images db page limit sort user_hash now base =
      list_images db (clampPage page) (clampLimit limit) sort user_hash now base := by
  have h1 : clampPage (clampPage page) = clampPage page := by
    unfold clampPage
    rw [← max_assoc, max_self]
  have h2 : clampLimit (clampLimit limit) = clampLimit limit := by
    unfold clampLimit
    rcases le_total limit 100 with h | h <;> rcases le_total 1 limit with h' | h' <;>
      simp [max_def, min_def] <;> omega
  have h3 : pageSkip (clampPage page) (clampLimit limit) = pageSkip page limit := by
    unfold pageSkip
    rw [h1, h2]
  refine ⟨le_max_left _ _, le_max_left _ _,
    max_le (by norm_num) (min_le_left _ _),
    by decide, by decide, by decide, by decide, by decide, rfl, ?_⟩
  simp only [list_images, h2, h3]

/-- C7: every unrecognized sort value produces exactly the listing of
`sort = "recent"` on the same store and pagination parameters. -/
theorem list_images_unknown_sort (db : DB) (page limit : Int) (s : String)
    (user_hash : Option String) (now : Int) (base : String)
    (h1 : s ≠ "recent") (h2 : s ≠ "popular") (h3 : s ≠ "trending") :
    list_images db page limit s user_hash now base =
      list_images db page limit "recent" user_hash now base := by
  have hs : sortedImages db s now = sortedImages db "recent" now := by
    unfold sortedImages
    rw [if_neg h1, if_neg h2, if_neg h3, if_pos rfl]
  simp only [list_images, hs]

theorem list_images_unknown_sort_witness :
    ("bogus" : String) ≠ "recent" ∧ ("bogus" : String) ≠ "popular" ∧
    ("bogus" : String) ≠ "trending" ∧
    list_images exDB 1 20 "bogus" none 0 "" =
      list_images exDB 1 20 "recent" none 0 "" :=
  ⟨by decide, by decide, by decide,
    list_images_unknown_sort exDB 1 20 "bogus" none 0 ""
      (by decide) (by decide) (by decide)⟩

/-- C9: the upload operation fails with the 400 No-image-file error when
no file is supplied, and on success answers the freshly created view
model with `likes_count = 0` and `liked_by_user = false`. -/
theorem upload_image_behavior (db : DB) (authorName imageName : Option String)
    (f : UploadFile) (uuidHex : String) (now : Int) (base : String) :
    upload_image db authorName imageName none uuidHex now base =
      .error ⟨400, "No image file provided"⟩ ∧
    ∃ db' out, upload_image db authorName imageName (some f) uuidHex now base =
      .ok (db', out) ∧ out.likes_count = 0 ∧ out.liked_by_user = false :=
  ⟨rfl, _, _, rfl, rfl, rfl⟩

/-! ### Inversion and preservation facts for the reachability invariant -/

theorem upload_ok_likes (db : DB) (an iname : Option String)
    (img : Option UploadFile) (tok : String) (now : Int) (base : String)
    (db' : DB) (out : ImageOut)
    (heq : upload_image db an iname img tok now base = .ok (db', out)) :
    db'.likes = db.likes := by
  cases img with
  | none => exact absurd heq (by simp [upload_image])
  | some f =>
    simp only [upload_image, Except.ok.injEq, Prod.mk.injEq] at heq
    obtain ⟨hdb, -⟩ := heq
    subst hdb
    rfl

theorem like_ok_likes (db : DB) (i : Nat) (act : LikeAction) (now : Int)
    (db' : DB) (r : LikeResult)
    (heq : like_image db i act now = .ok (db', r)) :
    db'.images = db.images ∧
    (db'.likes = likeInsert db.likes i act.user_hash now ∨
     db'.likes = unlikeDelete db.likes i act.user_hash) := by
  unfold like_image at heq
  split at heq
  · exact absurd heq (by simp)
  · split at heq
    · exact absurd heq (by simp)
    · split at heq <;>
        (simp only [Except.ok.injEq, Prod.mk.injEq] at heq
         obtain ⟨hdb, -⟩ := heq
         subst hdb)
      · exact ⟨rfl, Or.inl rfl⟩
      · exact ⟨rfl, Or.inr rfl⟩

theorem likesUnique_likeInsert {L : List Like} (i : Nat) (uh : String) (t : Int)
    (h : likesUnique L) : likesUnique (likeInsert L i uh t) := by
  unfold likeInsert
  split
  · exact h
  · next hne =>
    rw [likesUnique, List.pairwise_append]
    refine ⟨h, List.pairwise_singleton _ _, ?_⟩
    intro a ha b hb
    simp only [List.mem_singleton] at hb
    subst hb
    rintro ⟨hid, hu⟩
    apply hne
    rw [pairExists, List.any_eq_true]
    refine ⟨a, ha, ?_⟩
    simp only at hid hu
    simp [hid, hu]

theorem likesUnique_unlikeDelete {L : List Like} (i : Nat) (uh : String)
    (h : likesUnique L) : likesUnique (unlikeDelete L i uh) :=
  h.sublist (List.filter_sublist _)

/-- C4: in every state reachable through the system's operations —
starting from the empty store and applying uploads and like/unlike
calls — the like table holds at most one row per
`(image_id, user_hash)` pair. -/
theorem reachable_likes_unique (db : DB) (h : Reachable db) :
    likesUnique db.likes := by
  induction h with
  | init => exact List.Pairwise.nil
  | upload d an iname f tok now base d' out hr heq ih =>
    rw [upload_ok_likes d an iname (some f) tok now base d' out heq]
    exact ih
  | like d i act now d' r hr heq ih =>
    obtain ⟨-, hcase⟩ := like_ok_likes d i act now d' r heq
    rcases hcase with hcase | hcase <;> rw [hcase]
    · exact likesUnique_likeInsert _ _ _ ih
    · exact likesUnique_unlikeDelete _ _ ih

theorem reachable_likes_unique_witness :
    Reachable ⟨[], []⟩ ∧ likesUnique (DB.mk [] []).likes :=
  ⟨Reachable.init, reachable_likes_unique ⟨[], []⟩ Reachable.init⟩

/-! ### The full first page of a small store lists every image -/

theorem sortedImages_perm (db : DB) (s : String) (now : Int) :
    List.Perm (sortedImages db s now) db.images := by
  unfold sortedImages
  repeat' split
  all_goals exact List.perm_insertionSort _ _

theorem sortedImages_length (db : DB) (s : String) (now : Int) :
    (sortedImages db s now).length = db.images.length :=
  (sortedImages_perm db s now).length_eq

theorem list_images_full (db : DB) (s : String) (uh : Option String)
    (now : Int) (base : String) (hlen : db.images.length ≤ 100) :
    list_images db 1 100 s uh now base =
      (sortedImages db s now).map
        (buildImageOut db.likes ((sortedImages db s now).map Image.id)
          (if strTruthy uh then
            get_liked_ids_by_user db.likes ((sortedImages db s now).map Image.id)
              (uh.getD "")
           else []) base) := by
  have hw : sqlWindow (pageSkip 1 100).toNat (clampLimit 100).toNat
      (sortedImages db s now) = sortedImages db s now := by
    have hskip : (pageSkip 1 100).toNat = 0 := rfl
    have hlim : (clampLimit 100).toNat = 100 := rfl
    rw [hskip, hlim]
    unfold sqlWindow
    rw [List.drop_zero]
    apply List.take_of_length_le
    rw [sortedImages_length]
    exact hlen
  simp only [list_images, hw]

theorem list_images_mem_full (db : DB) (s : String) (uh : Option String)
    (now : Int) (base : String) (hlen : db.images.length ≤ 100)
    (im : Image) (him : im ∈ db.images) :
    ∃ o ∈ list_images db 1 100 s uh now base, o.id = im.id ∧
      o.likes_count =
        (get_total_likes_for_ids db.likes
          ((sortedImages db s now).map Image.id) im.id).getD 0 := by
  rw [list_images_full db s uh now base hlen]
  have him' : im ∈ sortedImages db s now :=
    (sortedImages_perm db s now).mem_iff.mpr him
  exact ⟨_, List.mem_map_of_mem _ him', rfl, rfl⟩

/-- The spec's trending scenario at `now = 0`: image 1 has two likes
created ten days ago, image 2 has one like created yesterday. -/
def scenarioDB : DB :=
  ⟨[⟨1, none, none, "a.png", "sa.png", none, none, -20⟩,
    ⟨2, none, none, "b.png", "sb.png", none, none, -10⟩],
   [⟨1, 1, "u1", -864000⟩, ⟨2, 1, "u2", -864000⟩, ⟨3, 2, "u3", -86400⟩]⟩

/-- C5: with sort `trending`, every page of the listing is ordered by
the count of the image's likes created within the rolling 7-day window
ending now, descending; images with no recent likes are still included
(the full first page lists every image); and on the spec's scenario —
image 1 with two likes ten days old, image 2 with one like from
yesterday — trending ranks image 2 first while popular ranks image 1
first. -/
theorem trending_orders_by_recent_likes (db : DB) (page limit : Int)
    (uh : Option String) (now : Int) (base : String)
    (hlen : db.images.length ≤ 100) :
    (∀ im ∈ db.images, ∃ o ∈ list_images db 1 100 "trending" uh now base,
      o.id = im.id) ∧
    (list_images db page limit "trending" uh now base).Pairwise
      (fun a b => trendingLikeCount db.likes (now - 7 * 86400) b.id ≤
        trendingLikeCount db.likes (now - 7 * 86400) a.id) ∧
    (list_images scenarioDB 1 20 "trending" none 0 "").map ImageOut.id = [2, 1] ∧
    (list_images scenarioDB 1 20 "popular" none 0 "").map ImageOut.id = [1, 2] := by
  refine ⟨?_, ?_, by decide, by decide⟩
  · intro im him
    obtain ⟨o, ho, hid, -⟩ := list_images_mem_full db "trending" uh now base hlen im him
    exact ⟨o, ho, hid⟩
  · have hs : sortedImages db "trending" now =
        db.images.insertionSort (trendingRel db.likes (now - 7 * 86400)) := by
      unfold sortedImages
      rw [if_neg (by decide), if_neg (by decide), if_pos rfl]
    haveI : IsTotal Image (trendingRel db.likes (now - 7 * 86400)) :=
      ⟨fun _ _ => Nat.le_total _ _⟩
    haveI : IsTrans Image (trendingRel db.likes (now - 7 * 86400)) :=
      ⟨fun _ _ _ hab hbd => le_trans hbd hab⟩
    have hsorted :=
      List.sorted_insertionSort (trendingRel db.likes (now - 7 * 86400)) db.images
    simp only [list_images, hs, sqlWindow]
    rw [List.pairwise_map]
    exact hsorted.sublist ((List.take_sublist _ _).trans (List.drop_sublist _ _))

theorem trending_orders_by_recent_likes_witness :
    scenarioDB.images.length ≤ 100 ∧
    ((∀ im ∈ scenarioDB.images,
        ∃ o ∈ list_images scenarioDB 1 100 "trending" none 0 "", o.id = im.id) ∧
     (list_images scenarioDB 1 20 "trending" none 0 "").Pairwise
       (fun a b => trendingLikeCount scenarioDB.likes ((0 : Int) - 7 * 86400) b.id ≤
         trendingLikeCount scenarioDB.likes ((0 : Int) - 7 * 86400) a.id) ∧
     (list_images scenarioDB 1 20 "trending" none 0 "").map ImageOut.id = [2, 1] ∧
     (list_images scenarioDB 1 20 "popular" none 0 "").map ImageOut.id = [1, 2]) :=
  ⟨by decide, trending_orders_by_recent_likes scenarioDB 1 20 none 0 "" (by decide)⟩

/-- A two-image store where image 1 has no likes and image 2 has one. -/
def exDB2 : DB :=
  ⟨[⟨1, none, none, "a.png", "sa.png", none, none, 0⟩,
    ⟨2, none, none, "b.png", "sb.png", none, none, 1⟩],
   [⟨1, 2, "u1", 0⟩]⟩

/-- C8: an image with zero Like rows still appears in the popular and in
the trending listing, and its view model carries `likes_count = 0` (the
id is absent from the grouped-count dict and the caller defaults it to
zero). -/
theorem zero_likes_still_listed (db : DB) (uh : Option String) (now : Int)
    (base : String) (im : Image) (him : im ∈ db.images)
    (hzero : imageLikeCount db.likes im.id = 0) (hlen : db.images.length ≤ 100) :
    (∃ o ∈ list_images db 1 100 "popular" uh now base,
       o.id = im.id ∧ o.likes_count = 0) ∧
    (∃ o ∈ list_images db 1 100 "trending" uh now base,
       o.id = im.id ∧ o.likes_count = 0) := by
  have hcount : ∀ ids, (get_total_likes_for_ids db.likes ids im.id).getD 0 = 0 := by
    intro ids
    unfold get_total_likes_for_ids
    split
    · rfl
    · have hsub : List.Sublist
          ((db.likes.filter (fun l => decide (l.image_id ∈ ids))).filter
            (fun l => l.image_id == im.id))
          (db.likes.filter (fun l => l.image_id == im.id)) := by
        rw [List.filter_filter]
        refine List.monotone_filter_right db.likes (fun a ha => ?_)
        simp only [Bool.and_eq_true] at ha
        exact ha.1
      have hc : ((db.likes.filter (fun l => decide (l.image_id ∈ ids))).filter
          (fun l => l.image_id == im.id)).length = 0 := by
        have := hsub.length_le
        rw [imageLikeCount] at hzero
        omega
      rw [if_pos hc]
      rfl
  constructor
  · obtain ⟨o, ho, hid, hcnt⟩ :=
      list_images_mem_full db "popular" uh now base hlen im him
    exact ⟨o, ho, hid, by rw [hcnt, hcount]⟩
  · obtain ⟨o, ho, hid, hcnt⟩ :=
      list_images_mem_full db "trending" uh now base hlen im him
    exact ⟨o, ho, hid, by rw [hcnt, hcount]⟩

theorem zero_likes_still_listed_witness :
    (⟨1, none, none, "a.png", "sa.png", none, none, 0⟩ : Image) ∈ exDB2.images ∧
    imageLikeCount exDB2.likes
      (⟨1, none, none, "a.png", "sa.png", none, none, 0⟩ : Image).id = 0 ∧
    exDB2.images.length ≤ 100 ∧
    ((∃ o ∈ list_images exDB2 1 100 "popular" none 0 "",
        o.id = (⟨1, none, none, "a.png", "sa.png", none, none, 0⟩ : Image).id ∧
        o.likes_count = 0) ∧
     (∃ o ∈ list_images exDB2 1 100 "trending" none 0 "",
        o.id = (⟨1, none, none, "a.png", "sa.png", none, none, 0⟩ : Image).id ∧
        o.likes_count = 0)) :=
  ⟨by decide, by decide, by decide,
    zero_likes_still_listed exDB2 none 0 ""
      ⟨1, none, none, "a.png", "sa.png", none, none, 0⟩
      (by decide) (by decide) (by decide)⟩

end Incognitart
